import Mathlib

/-!
Verification of the provider-mediation and session-orchestration core of the
simpleRXIndia voice-dictation prescription assistant.

The JavaScript source is shallowly embedded: each pure helper becomes a Lean
function, the stateful socket handlers become explicit step functions on
session-state records, asynchronous interleaving (the Node event loop) is
modelled as an explicit event trace, external collaborators (database,
provider SDKs, S3) are modelled as oracle records of `Except`-valued results,
and JavaScript strings are modelled as `List Char`.
-/

namespace ClinovaRx

/-- Character class removed by JavaScript `String.prototype.trim`
(ECMA-262 WhiteSpace and LineTerminator code points). -/
def isJsWs (c : Char) : Bool :=
  c == ' ' || c == '\t' || c == '\n' || c == '\r' ||
  c == '\x0b' || c == '\x0c' || c == ' ' ||
  c == ' ' || c == ' ' || c == ' ' || c == ' ' ||
  c == ' ' || c == ' ' || c == ' ' || c == ' ' ||
  c == ' ' || c == ' ' || c == ' ' || c == ' ' ||
  c == ' ' || c == ' ' || c == ' ' || c == ' ' ||
  c == '　' || c == '﻿'

/-- JavaScript `s.trim()` on a string modelled as a character list:
drop leading whitespace, then drop trailing whitespace. -/
def jsTrim (l : List Char) : List Char :=
  ((l.dropWhile isJsWs).reverse.dropWhile isJsWs).reverse

/-- Number of non-whitespace characters of a string. -/
def countNonWs (l : List Char) : Nat :=
  l.countP (fun c => !isJsWs c)

/-- The backquote character, written by code point to keep source plain. -/
def backquote : Char := Char.ofNat 96

/-- Model of the `cleanAI` helper (src/server.js:190): delete every
occurrence of a triple-backquote fence, optionally followed by `html` in any
case, then trim the result. -/
def stripFences : List Char → List Char
  | [] => []
  | c1 :: c2 :: c3 :: h1 :: h2 :: h3 :: h4 :: r2 =>
      if c1 = backquote ∧ c2 = backquote ∧ c3 = backquote then
        if h1.toLower = 'h' ∧ h2.toLower = 't' ∧ h3.toLower = 'm' ∧ h4.toLower = 'l' then
          stripFences r2
        else
          stripFences (h1 :: h2 :: h3 :: h4 :: r2)
      else c1 :: stripFences (c2 :: c3 :: h1 :: h2 :: h3 :: h4 :: r2)
  | c1 :: c2 :: c3 :: r =>
      if c1 = backquote ∧ c2 = backquote ∧ c3 = backquote then stripFences r
      else c1 :: stripFences (c2 :: c3 :: r)
  | c :: rest => c :: stripFences rest
termination_by l => l.length
decreasing_by all_goals (simp) <;> omega

def cleanAI (l : List Char) : List Char := jsTrim (stripFences l)

/-- Parsed-HTML token: the event stream the sanitizer's streaming parser
feeds to the filter (open tag with attributes, close tag, character data). -/
inductive Tok where
  | openTag (tag : String) (attrs : List (String × String))
  | closeTag (tag : String)
  | text (s : String)
deriving DecidableEq, Repr

/-- Configuration of the sanitize-html dependency as the repository calls it. -/
structure SanitizeConfig where
  allowedTags : List String
  allowedAttributes : List String
  allowedSchemes : List String
  nonTextTags : List String

/-- The exact configuration at src/server.js:143-150 (duplicated at
src/unnamed/part_009 and part_004); `nonTextTags` is the dependency's fixed
default (contents of these disallowed elements are dropped, not kept). -/
def serverSanitizeConfig : SanitizeConfig :=
  { allowedTags := ["h1", "h2", "h3", "h4", "p", "b", "strong", "i", "em", "u",
      "ul", "ol", "li", "table", "thead", "tbody", "tr", "th", "td", "hr",
      "br", "span", "div"]
  , allowedAttributes := ["colspan", "rowspan", "class", "style"]
  , allowedSchemes := ["http", "https", "mailto"]
  , nonTextTags := ["script", "style", "textarea", "option"] }

/-- Attribute names the sanitizer subjects to the URL-scheme allow-list. -/
def isUrlAttrName (n : String) : Bool :=
  n == "href" || n == "src" || n == "cite"

/-- Scheme check of the sanitizer: a value with no scheme separator is
relative and passes; otherwise its scheme must be on the allow-list. -/
def schemeOk (cfg : SanitizeConfig) (v : String) : Bool :=
  let pre := v.data.takeWhile (fun c => c ≠ ':')
  if pre.length = v.data.length then true
  else cfg.allowedSchemes.contains (String.mk (pre.map Char.toLower))

/-- An attribute survives when its name is on the (tag-independent) attribute
allow-list and, for URL-valued attributes, its scheme is allowed. -/
def attrAllowed (cfg : SanitizeConfig) (a : String × String) : Bool :=
  cfg.allowedAttributes.contains a.1 &&
    (!(isUrlAttrName a.1) || schemeOk cfg a.2)

/-- Model of the sanitize-html dependency in `disallowedTagsMode: 'discard'`:
allowed tags are kept with filtered attributes, a disallowed non-text tag is
dropped while its contents are kept, and a disallowed non-text-content tag
(script and friends) is dropped together with everything inside it.  The
second argument is the stack of currently-open dropped non-text elements. -/
def sanitizeToks (cfg : SanitizeConfig) : List Tok → List String → List Tok
  | [], _ => []
  | Tok.openTag t attrs :: rest, [] =>
      if cfg.allowedTags.contains t then
        Tok.openTag t (attrs.filter (attrAllowed cfg)) :: sanitizeToks cfg rest []
      else if cfg.nonTextTags.contains t then sanitizeToks cfg rest [t]
      else sanitizeToks cfg rest []
  | Tok.openTag t _ :: rest, s :: ss =>
      if cfg.nonTextTags.contains t then sanitizeToks cfg rest (t :: s :: ss)
      else sanitizeToks cfg rest (s :: ss)
  | Tok.text s :: rest, [] => Tok.text s :: sanitizeToks cfg rest []
  | Tok.text _ :: rest, s :: ss => sanitizeToks cfg rest (s :: ss)
  | Tok.closeTag t :: rest, [] =>
      if cfg.allowedTags.contains t then Tok.closeTag t :: sanitizeToks cfg rest []
      else sanitizeToks cfg rest []
  | Tok.closeTag t :: rest, s :: ss =>
      if t = s then sanitizeToks cfg rest ss else sanitizeToks cfg rest (s :: ss)

/-- The `sanitizeContent` helper of src/server.js:143 applied to a parsed
token stream. -/
def sanitizeContent (toks : List Tok) : List Tok :=
  sanitizeToks serverSanitizeConfig toks []

/-- Per-token guarantee of the sanitizer: tags on the allow-list, attributes
on the attribute allow-list with allowed URL schemes. -/
def tagOk (cfg : SanitizeConfig) : Tok → Bool
  | Tok.openTag t attrs =>
      cfg.allowedTags.contains t && attrs.all (attrAllowed cfg)
  | Tok.closeTag t => cfg.allowedTags.contains t
  | Tok.text _ => true

/-- A structured-output schema value; its contents are opaque to the gateway
(the repository passes `formatResponseSchema` through unchanged). -/
structure RespSchema where
  id : Nat
deriving DecidableEq, Repr

/-- Resolved provider selection for a text-generation task, the result of
`getLlmConfig(task)` (the provider-registry module is consulted but its
resolution result is treated as an input here). -/
structure LlmConfig where
  provider : String
  model : String
deriving DecidableEq, Repr

/-- A Gemini `generateContent` request: with a schema it carries the
JSON generation config, without one it is a plain-text completion. -/
structure GeminiReq where
  model : String
  prompt : String
  schema : Option RespSchema
deriving DecidableEq, Repr

/-- An OpenAI-shaped chat-completions request (also used by the Groq branch);
`jsonMode` records `response_format: json_object` plus the JSON system
message. -/
structure ChatReq where
  model : String
  prompt : String
  jsonMode : Bool
deriving DecidableEq, Repr

/-- One upstream text-generation provider invocation. -/
inductive ProviderCall where
  | gemini (req : GeminiReq)
  | openai (req : ChatReq)
  | groq (req : ChatReq)
deriving DecidableEq, Repr

structure GeminiErr where
  message : String
deriving DecidableEq, Repr

/-- External world of the gateway: which credentials are present and what
each provider returns for a given request. -/
structure LlmEnv where
  geminiConfigured : Bool
  openaiConfigured : Bool
  groqKeyPresent : Bool
  geminiGenerate : GeminiReq → Except GeminiErr String
  openaiCreate : ChatReq → Except String String
  groqFetch : ChatReq → Except Nat String

/-- Errors `runLlmTask` can throw. -/
inductive LlmError where
  | notConfigured (msg : String)
  | unsupportedProvider (task provider : String)
  | providerError (msg : String)
  | groqStatus (status : Nat)
deriving DecidableEq, Repr

structure LlmResult where
  raw : String
  provider : String
  model : String
deriving DecidableEq, Repr

/-- Lower-casing on the character list (JavaScript `toLowerCase`), kept
kernel-reducible. -/
def lowerStr (s : String) : String := String.mk (s.data.map Char.toLower)

/-- First list is a prefix of the second (on characters). -/
def hasPrefixChars : List Char → List Char → Bool
  | [], _ => true
  | _ :: _, [] => false
  | a :: as, b :: bs => a == b && hasPrefixChars as bs

/-- Whether `pat` occurs as a contiguous substring of the character list. -/
def charsHave (pat : List Char) : List Char → Bool
  | [] => pat.isEmpty
  | c :: rest => hasPrefixChars pat (c :: rest) || charsHave pat rest

/-- JavaScript `msg.includes(pat)`. -/
def msgContains (msg pat : String) : Bool := charsHave pat.data msg.data

/-- The Gemini-specific feature-unsupported error signature
(src/src/services/llm.service.js:52). -/
def schemaUnsupportedMsg (msg : String) : Bool :=
  msgContains msg "responseMimeType" || msgContains msg "responseSchema"

/-- Shallow embedding of `runLlmTask` (src/src/services/llm.service.js:31-117,
identical control flow at src/server.js:203-275): resolve the provider,
dispatch to the matching adapter, fail fast on a missing credential, retry a
schema-constrained Gemini call once without the schema when the error carries
the feature-unsupported signature, and reject unknown providers.  Returns the
result together with the list of provider invocations actually issued. -/
def runLlmTask (env : LlmEnv) (cfg : LlmConfig) (task prompt : String)
    (responseSchema : Option RespSchema) (forceJson : Bool) :
    Except LlmError LlmResult × List ProviderCall :=
  let lowerProvider := lowerStr cfg.provider
  if lowerProvider = "gemini" then
    if !env.geminiConfigured then (.error (.notConfigured "Gemini not configured"), [])
    else
      match responseSchema with
      | some sch =>
        let req1 : GeminiReq := ⟨cfg.model, prompt, some sch⟩
        match env.geminiGenerate req1 with
        | .ok txt => (.ok ⟨txt, lowerProvider, cfg.model⟩, [.gemini req1])
        | .error e =>
          if schemaUnsupportedMsg e.message then
            let req2 : GeminiReq := ⟨cfg.model, prompt, none⟩
            match env.geminiGenerate req2 with
            | .ok txt => (.ok ⟨txt, lowerProvider, cfg.model⟩, [.gemini req1, .gemini req2])
            | .error e2 => (.error (.providerError e2.message), [.gemini req1, .gemini req2])
          else (.error (.providerError e.message), [.gemini req1])
      | none =>
        let req : GeminiReq := ⟨cfg.model, prompt, none⟩
        match env.geminiGenerate req with
        | .ok txt => (.ok ⟨txt, lowerProvider, cfg.model⟩, [.gemini req])
        | .error e => (.error (.providerError e.message), [.gemini req])
  else if lowerProvider = "openai" then
    if !env.openaiConfigured then (.error (.notConfigured "OpenAI not configured"), [])
    else
      let req : ChatReq := ⟨cfg.model, prompt, responseSchema.isSome || forceJson⟩
      match env.openaiCreate req with
      | .ok content => (.ok ⟨content, lowerProvider, cfg.model⟩, [.openai req])
      | .error e => (.error (.providerError e), [.openai req])
  else if lowerProvider = "groq" then
    if !env.groqKeyPresent then (.error (.notConfigured "GROQ_API_KEY missing"), [])
    else
      let req : ChatReq := ⟨cfg.model, prompt, responseSchema.isSome || forceJson⟩
      match env.groqFetch req with
      | .ok content => (.ok ⟨content, lowerProvider, cfg.model⟩, [.groq req])
      | .error status => (.error (.groqStatus status), [.groq req])
  else (.error (.unsupportedProvider task cfg.provider), [])

/-- Resolved provider selection for a transcription task, the result of
`getTranscriptionConfig(task)`. -/
structure TransConfig where
  provider : String
  model : String
  language : String
deriving DecidableEq, Repr

/-- One upstream one-shot transcription request as the adapters build it. -/
structure TransCall where
  provider : String
  model : String
  language : String
  filename : String
  mimetype : String
deriving DecidableEq, Repr

inductive TransError where
  | notConfigured (msg : String)
  | providerError (msg : String)
  | groqStatus (status : Nat)
  | unsupportedProvider (provider : String)
deriving DecidableEq, Repr

def transErrMsg : TransError → String
  | .notConfigured m => m
  | .providerError m => m
  | .groqStatus s => "Groq transcription error " ++ toString s
  | .unsupportedProvider p => "Unsupported transcription provider: " ++ p

/-- External world of the transcription gateway: the task-to-config
resolution (`getTranscriptionConfig`, whose module is not part of the
embedded core and is treated as an arbitrary input), credential presence,
and each backend's reply. -/
structure TransEnv where
  resolveTask : String → TransConfig
  deepgramConfigured : Bool
  openaiConfigured : Bool
  groqKeyPresent : Bool
  deepgramReply : Except String String
  openaiReply : Except String String
  groqReply : Except Nat String

/-- Shallow embedding of `transcribe` (src/src/services/transcription.service.js:29-63):
always resolves via the "offline" task, dispatches on the lower-cased
provider, fails fast on missing credentials, and returns whatever transcript
the backend produced (the empty string included).  The returned list records
the provider requests issued. -/
def transcribe (env : TransEnv) (_audio : List Nat) (filename mimetype : String) :
    Except TransError String × List TransCall :=
  let config := env.resolveTask "offline"
  let lowerProvider := lowerStr config.provider
  if lowerProvider = "deepgram" then
    if !env.deepgramConfigured then (.error (.notConfigured "Deepgram not configured"), [])
    else
      let call : TransCall := ⟨lowerProvider, config.model, config.language, filename, mimetype⟩
      match env.deepgramReply with
      | .ok t => (.ok t, [call])
      | .error e => (.error (.providerError e), [call])
  else if lowerProvider = "openai" then
    if !env.openaiConfigured then (.error (.notConfigured "OpenAI not configured"), [])
    else
      let call : TransCall := ⟨lowerProvider, config.model, config.language, filename, mimetype⟩
      match env.openaiReply with
      | .ok t => (.ok t, [call])
      | .error e => (.error (.providerError e), [call])
  else if lowerProvider = "groq" then
    if !env.groqKeyPresent then (.error (.notConfigured "GROQ_API_KEY missing"), [])
    else
      let call : TransCall := ⟨lowerProvider, config.model, config.language, filename, mimetype⟩
      match env.groqReply with
      | .ok t => (.ok t, [call])
      | .error status => (.error (.groqStatus status), [call])
  else (.error (.unsupportedProvider config.provider), [])

/-- JavaScript `key.endsWith(suf)`, kept kernel-reducible. -/
def strEndsWith (s suf : String) : Bool :=
  hasPrefixChars suf.data.reverse s.data.reverse

/-- The `mimeForKey` helper of the upload controller (src/unnamed/part_009:68-74). -/
def mimeForKey (key : String) : String :=
  if strEndsWith key ".wav" then "audio/wav"
  else if strEndsWith key ".mp3" then "audio/mpeg"
  else if strEndsWith key ".m4a" then "audio/mp4"
  else if strEndsWith key ".ogg" then "audio/ogg"
  else "audio/webm"

/-- Node `path.basename` on an S3 key: the component after the last slash. -/
def basenameOf (key : String) : String :=
  String.mk (key.data.reverse.takeWhile (fun c => c ≠ '/')).reverse

/-- A stored macro row (`trigger_phrase`, `expansion`). -/
structure MacroItem where
  trigger : String
  expansion : String
deriving DecidableEq, Repr

/-- JavaScript `JSON.stringify` of the macro rows as embedded into the scribe prompt. -/
def joinComma : List String → String
  | [] => ""
  | [x] => x
  | x :: xs => x ++ "," ++ joinComma xs

def macrosJson (ms : List MacroItem) : String :=
  "[" ++ joinComma
    (ms.map (fun m =>
      "\x7b\"trigger_phrase\":\"" ++ m.trigger ++ "\",\"expansion\":\"" ++
        m.expansion ++ "\"\x7d")) ++ "]"

/-- Structural skeleton of `generateScribePrompt` (src/src/prompts.js): the
template embeds the prior note context, the new transcript and the stringified
macro list between fixed instruction text (the long literal instruction
passages are abridged to their headings; their wording is immaterial to every
verified claim). -/
def generateScribePrompt (transcript context : String) (ms : List MacroItem) : String :=
  "Act as an expert medical scribe for an Indian Doctor." ++
  "\n**Current Note Context (HTML):** \"" ++ context ++ "\"" ++
  "\n**New Dictation:** \"" ++ transcript ++ "\"" ++
  "\n**Available Macros (Protocols):** " ++ macrosJson ms ++
  "\n**YOUR TASK:** Update the \"Current Note\" based on the \"New Dictation\"." ++
  "\n**OUTPUT:** Return ONLY the raw HTML string. No markdown code blocks."

/-- Shallow embedding of `deductCredit` (src/database.js:135-142):
`UPDATE users SET credits = credits - 1 WHERE id = ? AND credits >= 1`,
resolving to whether a row changed.  One atomic read-modify-write on the
caller's balance: deduct exactly one unit iff the balance is at least one. -/
def deductCredit (credits : Nat) : Nat × Bool :=
  if 1 ≤ credits then (credits - 1, true) else (credits, false)

/-- JavaScript truthiness of the `fullTranscript` payload field
(`undefined`/`null` and the empty string are falsy). -/
def jsFalsyStr : Option String → Bool
  | none => true
  | some s => s.data.isEmpty

/-- Outcome emitted to the socket client by the finalize handler. -/
inductive FinalizeOutcome where
  | useBackupUpload
  | lowBalance
  | success (html : List Tok) (remaining : Nat)
  | aiProcessingFailed
deriving Repr

/-- External collaborators of the live finalize handler: the macro store,
the text-generation gateway applied to the constructed prompt (its own
environment folded in), the HTML parser inside the sanitizer, and whether
the fresh balance read succeeds. -/
structure ScribeEnv where
  macros : Except String (List MacroItem)
  llm : String → Except String String
  parse : List Char → List Tok
  creditsReadOk : Bool

/-- Observable effects of one finalize invocation. -/
structure FinalizeOut where
  outcome : FinalizeOutcome
  credits : Nat
  deductCalls : Nat
  llmPrompts : List String
deriving Repr

/-- Shallow embedding of the `finalize-prescription` handler
(src/server.js:415-452, identical at src/unnamed/part_004:127-164), after the
unconditional channel teardown: fall back to upload when streaming is
unsupported or the transcript is falsy or trims below two characters;
otherwise deduct one credit (failing distinctly on insufficient balance),
fetch macros, run the scribe task, re-read the balance, and emit the
sanitized HTML — any thrown step after the deduction yields the generic
failure result. -/
def finalizePrescription (liveSupportsStreaming : Bool)
    (fullTranscript : Option String) (context : String)
    (env : ScribeEnv) (credits : Nat) : FinalizeOut :=
  if !liveSupportsStreaming || jsFalsyStr fullTranscript ||
      (jsTrim (fullTranscript.getD "").data).length < 2 then
    ⟨.useBackupUpload, credits, 0, []⟩
  else
    let ft := fullTranscript.getD ""
    match deductCredit credits with
    | (c, false) => ⟨.lowBalance, c, 1, []⟩
    | (c, true) =>
      match env.macros with
      | .error _ => ⟨.aiProcessingFailed, c, 1, []⟩
      | .ok ms =>
        let prompt := generateScribePrompt ft context ms
        match env.llm prompt with
        | .error _ => ⟨.aiProcessingFailed, c, 1, [prompt]⟩
        | .ok raw =>
          if env.creditsReadOk then
            ⟨.success (sanitizeContent (env.parse (cleanAI raw.data))) c, c, 1, [prompt]⟩
          else ⟨.aiProcessingFailed, c, 1, [prompt]⟩

/-- HTTP outcome of the one-shot upload controllers. -/
inductive OneShotOutcome where
  | unauthorized
  | invalidKey
  | s3NotConfigured
  | insufficientCredits
  | serverError (msg : String)
  | success (html : List Tok) (remaining : Nat)
deriving Repr

/-- External collaborators of the one-shot controllers. -/
structure OneShotEnv where
  s3Fetch : Except String (List Nat)
  fileRead : Except String (List Nat)
  trans : TransEnv
  macros : Except String (List MacroItem)
  llm : String → Except String String
  parse : List Char → List Tok
  creditsReadOk : Bool

/-- Observable effects of one one-shot processing request. -/
structure OneShotOut where
  outcome : OneShotOutcome
  credits : Nat
  deductCalls : Nat
  transCalls : List TransCall
  llmPrompts : List String
deriving Repr

/-- Shallow embedding of `processS3` (src/unnamed/part_009:76-110): validate
the session and key, deduct one credit (402 on insufficient balance, before
any S3 or provider call), fetch the object, transcribe via the gateway,
build the scribe prompt, run the scribe task, re-read the balance and return
sanitized HTML; any thrown step surfaces as a 500 with the error message. -/
def processS3 (authed : Bool) (s3Configured : Bool) (userId key context : String)
    (env : OneShotEnv) (credits : Nat) : OneShotOut :=
  if !authed then ⟨.unauthorized, credits, 0, [], []⟩
  else if key.data.isEmpty ||
      !(hasPrefixChars ("uploads/" ++ userId ++ "/").data key.data) then
    ⟨.invalidKey, credits, 0, [], []⟩
  else if !s3Configured then ⟨.s3NotConfigured, credits, 0, [], []⟩
  else
    match deductCredit credits with
    | (c, false) => ⟨.insufficientCredits, c, 1, [], []⟩
    | (c, true) =>
      match env.s3Fetch with
      | .error e => ⟨.serverError e, c, 1, [], []⟩
      | .ok audio =>
        match transcribe env.trans audio (basenameOf key) (mimeForKey key) with
        | (.error e, tcalls) => ⟨.serverError (transErrMsg e), c, 1, tcalls, []⟩
        | (.ok transcript, tcalls) =>
          match env.macros with
          | .error e => ⟨.serverError e, c, 1, tcalls, []⟩
          | .ok ms =>
            let prompt := generateScribePrompt transcript context ms
            match env.llm prompt with
            | .error e => ⟨.serverError e, c, 1, tcalls, [prompt]⟩
            | .ok raw =>
              if env.creditsReadOk then
                ⟨.success (sanitizeContent (env.parse (cleanAI raw.data))) c,
                  c, 1, tcalls, [prompt]⟩
              else ⟨.serverError "getCredits failed", c, 1, tcalls, [prompt]⟩

/-- Shallow embedding of `processBackup` (src/unnamed/part_009:112-142):
like `processS3` but reading the multipart upload from disk; a missing file
is thrown and caught (500), insufficient balance is a distinct 402. -/
def processBackup (authed : Bool) (filePresent : Bool)
    (fileMime : Option String) (fileName : Option String) (context : String)
    (env : OneShotEnv) (credits : Nat) : OneShotOut :=
  if !authed then ⟨.unauthorized, credits, 0, [], []⟩
  else if !filePresent then ⟨.serverError "No audio file.", credits, 0, [], []⟩
  else
    match deductCredit credits with
    | (c, false) => ⟨.insufficientCredits, c, 1, [], []⟩
    | (c, true) =>
      match env.fileRead with
      | .error e => ⟨.serverError e, c, 1, [], []⟩
      | .ok buffer =>
        let mime0 := fileMime.getD "audio/webm"
        let mime := if mime0.data.isEmpty then "audio/webm" else mime0
        let fname0 := fileName.getD "upload.webm"
        let fname := if fname0.data.isEmpty then "upload.webm" else fname0
        match transcribe env.trans buffer fname mime with
        | (.error e, tcalls) => ⟨.serverError (transErrMsg e), c, 1, tcalls, []⟩
        | (.ok transcript, tcalls) =>
          match env.macros with
          | .error e => ⟨.serverError e, c, 1, tcalls, []⟩
          | .ok ms =>
            let prompt := generateScribePrompt transcript context ms
            match env.llm prompt with
            | .error e => ⟨.serverError e, c, 1, tcalls, [prompt]⟩
            | .ok raw =>
              if env.creditsReadOk then
                ⟨.success (sanitizeContent (env.parse (cleanAI raw.data))) c,
                  c, 1, tcalls, [prompt]⟩
              else ⟨.serverError "getCredits failed", c, 1, tcalls, [prompt]⟩

/-- One live finalize invocation in a sequence (its transcript, context and
collaborator world). -/
structure FinalizeCall where
  live : Bool
  fullTranscript : Option String
  context : String
  env : ScribeEnv

def isSuccess : FinalizeOutcome → Bool
  | .success _ _ => true
  | _ => false

/-- Run a sequence of finalize calls against one caller's ledger, counting
successful completions. -/
def runFinalizeSeq : List FinalizeCall → Nat → Nat × Nat
  | [], c => (0, c)
  | k :: ks, c =>
      let out := finalizePrescription k.live k.fullTranscript k.context k.env c
      let (s, c2) := runFinalizeSeq ks out.credits
      ((if isSuccess out.outcome then 1 else 0) + s, c2)

/-- Keep-alive period hard-coded in the Open handler (src/server.js:357). -/
def keepAliveIntervalMs : Nat := 8000

/-- Deepgram's idle-disconnect window, per the comment at src/server.js:352
("Prevent 10s timeout during silence"). -/
def deepgramIdleTimeoutMs : Nat := 10000

/-- Per-connection closure state of the live handler set
(src/server.js:317-458): the upstream channel reference, whether the
keep-alive interval is installed, and counters for the observable effects. -/
structure LiveSession where
  dgConnection : Option Unit
  keepAliveActive : Bool
  keepAlivesSent : Nat
  errorsLogged : Nat
deriving DecidableEq, Repr

/-- Events the handler closures react to: provider open acknowledgment,
channel-level provider error, provider-side close, client finalize, client
disconnect, and a keep-alive timer tick (with the channel's readiness at
that instant). -/
inductive LiveEvent where
  | openEvt
  | errorEvt
  | closeEvt
  | finalizeEvt
  | disconnectEvt
  | tick (ready : Bool)
deriving DecidableEq, Repr

/-- Shallow embedding of the event handlers wired in `setupDeepgram` and the
socket handlers (src/server.js:349-377, 415-421, 454-457): Open installs the
8-second keep-alive interval; Error only logs (`console.error("DG Error:")`);
Close clears the interval and the channel reference; finalize finishes the
channel, clears the reference and the interval; disconnect finishes the
channel and clears the interval; a timer tick sends a keep-alive exactly when
the interval is installed and the channel reports ready-state 1. -/
def liveStep (s : LiveSession) : LiveEvent → LiveSession
  | .openEvt => { s with keepAliveActive := true }
  | .errorEvt => { s with errorsLogged := s.errorsLogged + 1 }
  | .closeEvt => { s with keepAliveActive := false, dgConnection := none }
  | .finalizeEvt => { s with dgConnection := none, keepAliveActive := false }
  | .disconnectEvt => { s with keepAliveActive := false }
  | .tick ready =>
      if s.keepAliveActive && s.dgConnection.isSome && ready then
        { s with keepAlivesSent := s.keepAlivesSent + 1 }
      else s

/-- State of the lazy channel-open logic of the `audio-stream` handler
(src/server.js:386-391): the channel reference, the number of
`setupDeepgram` activations currently suspended at `await db.getSettings`,
and the number of `deepgram.listen.live` open requests issued. -/
structure AudioSession where
  dgConnection : Option Unit
  pendingOpens : Nat
  opensIssued : Nat
deriving DecidableEq, Repr

/-- Event-loop turns relevant to channel opening: an audio frame arriving
(running the handler up to its suspension point), and one suspended
settings read resolving (running the rest of `setupDeepgram`, which calls
`deepgram.listen.live` and assigns the channel reference). -/
inductive AudioEvent where
  | frame
  | settingsResolved
deriving DecidableEq, Repr

/-- One event-loop turn of the audio-stream path.  A frame with no channel
reference starts `setupDeepgram`, which immediately suspends at the awaited
settings read; nothing in the handler records that an open is already in
flight.  When a suspended read resolves, the open request is issued and the
channel reference assigned. -/
def audioStep (liveSupportsStreaming : Bool) (s : AudioSession) :
    AudioEvent → AudioSession
  | .frame =>
      if !liveSupportsStreaming then s
      else if s.dgConnection.isNone then { s with pendingOpens := s.pendingOpens + 1 }
      else s
  | .settingsResolved =>
      match s.pendingOpens with
      | 0 => s
      | n + 1 =>
          { dgConnection := some (), pendingOpens := n,
            opensIssued := s.opensIssued + 1 }

def runAudio (live : Bool) : List AudioEvent → AudioSession → AudioSession
  | [], s => s
  | e :: es, s => runAudio live es (audioStep live s e)

/-- Session state at client connect. -/
def audioInit : AudioSession := ⟨none, 0, 0⟩

/-- A frame processed atomically: the settings read resolves before the next
event-loop turn (no interleaved frame). -/
def audioAtomic (live : Bool) (s : AudioSession) : AudioSession :=
  audioStep live (audioStep live s .frame) .settingsResolved

def runAudioAtomic (live : Bool) : Nat → AudioSession → AudioSession
  | 0, s => s
  | n + 1, s => runAudioAtomic live n (audioAtomic live s)

/-- Shallow embedding of the review endpoint (src/server.js:601-615): run the
`review` task and return the sanitized fence-stripped output. -/
def reviewHandler (llm : Except String String) (parse : List Char → List Tok) :
    Except String (List Tok) :=
  match llm with
  | .error e => .error e
  | .ok raw => .ok (sanitizeContent (parse (cleanAI raw.data)))

/-- Shallow embedding of the format endpoint's returned HTML field
(src/server.js:617-650): the parsed payload's `html` field (or the whole
cleaned text when JSON parsing fails, or the empty string when the field is
absent) is sanitized before being returned; `extractHtml` abstracts
`JSON.parse` plus the `parsed.html || ""` fallback. -/
def formatHandler (llm : Except String String) (extractHtml : String → String)
    (parse : List Char → List Tok) : Except String (List Tok) :=
  match llm with
  | .error e => .error e
  | .ok raw => .ok (sanitizeContent (parse (extractHtml raw).data))

/-- Fixed transcription world used by concrete witness instantiations. -/
def wTransEnv : TransEnv :=
  { resolveTask := fun t =>
      if t = "offline" then ⟨"deepgram", "nova-2", "en-IN"⟩
      else ⟨"deepgram", "nova-3-medical", "en-IN"⟩
  , deepgramConfigured := true
  , openaiConfigured := true
  , groqKeyPresent := true
  , deepgramReply := .ok "patient has fever"
  , openaiReply := .ok "patient has fever"
  , groqReply := .ok "patient has fever" }

/-- Fixed live-finalize world used by concrete witness instantiations. -/
def wScribeEnv : ScribeEnv :=
  { macros := .ok []
  , llm := fun _ => .ok "<p>ok</p>"
  , parse := fun _ => [Tok.openTag "p" [], Tok.text "ok", Tok.closeTag "p"]
  , creditsReadOk := true }

/-- Live-finalize world whose text-generation call fails. -/
def wScribeEnvFail : ScribeEnv :=
  { macros := .ok []
  , llm := fun _ => .error "provider down"
  , parse := fun _ => []
  , creditsReadOk := true }

/-- Fixed one-shot world used by concrete witness instantiations. -/
def wOneShotEnv : OneShotEnv :=
  { s3Fetch := .ok [1, 2, 3]
  , fileRead := .ok [1, 2, 3]
  , trans := wTransEnv
  , macros := .ok []
  , llm := fun _ => .ok "<p>ok</p>"
  , parse := fun _ => [Tok.openTag "p" [], Tok.text "ok", Tok.closeTag "p"]
  , creditsReadOk := true }

/-- One-shot world whose text-generation call fails. -/
def wOneShotEnvFail : OneShotEnv :=
  { s3Fetch := .ok [1, 2, 3]
  , fileRead := .ok [1, 2, 3]
  , trans := wTransEnv
  , macros := .ok []
  , llm := fun _ => .error "provider down"
  , parse := fun _ => []
  , creditsReadOk := true }

/-- Success outcomes of the live finalize path carry sanitizer output only. -/
def sanitizedFin : FinalizeOutcome → Prop
  | .success html _ => ∃ src, html = sanitizeContent src
  | _ => True

/-- Success outcomes of the one-shot paths carry sanitizer output only. -/
def sanitizedOne : OneShotOutcome → Prop
  | .success html _ => ∃ src, html = sanitizeContent src
  | _ => True

/-- Concrete gateway world for witnesses: the Gemini backend rejects
schema-constrained calls with the feature-unsupported signature and answers
plain-text calls. -/
def wLlmEnv : LlmEnv :=
  { geminiConfigured := true
  , openaiConfigured := true
  , groqKeyPresent := true
  , geminiGenerate := fun r =>
      if r.schema.isSome then
        .error ⟨"400 responseSchema is not supported for this model"⟩
      else .ok "plain text result"
  , openaiCreate := fun _ => .ok "openai result"
  , groqFetch := fun _ => .ok "groq result" }

/-- Gateway world with every credential absent. -/
def wLlmEnvBare : LlmEnv :=
  { geminiConfigured := false
  , openaiConfigured := false
  , groqKeyPresent := false
  , geminiGenerate := fun _ => .error ⟨"unreachable"⟩
  , openaiCreate := fun _ => .error "unreachable"
  , groqFetch := fun _ => .error 500 }

/-- Gateway world whose providers all fail. -/
def wLlmEnvErr : LlmEnv :=
  { geminiConfigured := true
  , openaiConfigured := true
  , groqKeyPresent := true
  , geminiGenerate := fun _ => .error ⟨"network down"⟩
  , openaiCreate := fun _ => .error "network down"
  , groqFetch := fun _ => .error 503 }

/-- A provider request that carries exactly the backend, model and language
resolved for the "offline" transcription task. -/
def offlineCall (env : TransEnv) (call : TransCall) : Prop :=
  call.provider = lowerStr (env.resolveTask "offline").provider
  ∧ call.model = (env.resolveTask "offline").model
  ∧ call.language = (env.resolveTask "offline").language

/-- Transcription world whose backend returns an empty transcript. -/
def wTransEnvEmpty : TransEnv :=
  { wTransEnv with deepgramReply := .ok "" }

/-- Dropping a prefix of characters that all satisfy `p` does not change the
count of characters satisfying the complementary test. -/
theorem countP_not_dropWhile (p : Char → Bool) (l : List Char) :
    (l.dropWhile p).countP (fun c => !p c) = l.countP (fun c => !p c) := by
  induction l with
  | nil => rfl
  | cons a t ih =>
      by_cases h : p a
      · simp [List.dropWhile, h, ih, List.countP_cons]
      · simp [List.dropWhile, h]

theorem countNonWs_jsTrim (l : List Char) : countNonWs (jsTrim l) = countNonWs l := by
  unfold jsTrim countNonWs
  rw [List.countP_reverse, countP_not_dropWhile, List.countP_reverse,
    countP_not_dropWhile]

/-- The head of `dropWhile p` does not satisfy `p`. -/
theorem head?_dropWhile_not (p : Char → Bool) (l : List Char) :
    ∀ a, (l.dropWhile p).head? = some a → p a = false := by
  induction l with
  | nil => intro a h; simp [List.dropWhile] at h
  | cons b t ih =>
      intro a h
      by_cases hb : p b
      · exact ih a (by simpa [List.dropWhile, hb] using h)
      · simp [List.dropWhile, hb] at h
        simp [← h, hb]

/-- The function `dropWhile` keeps the last element when the result is nonempty. -/
theorem getLast?_dropWhile (p : Char → Bool) (l : List Char)
    (h : l.dropWhile p ≠ []) : (l.dropWhile p).getLast? = l.getLast? := by
  induction l with
  | nil => simp [List.dropWhile] at h
  | cons b t ih =>
      by_cases hb : p b
      · have hd : (b :: t).dropWhile p = t.dropWhile p := by simp [List.dropWhile, hb]
        rw [hd] at h ⊢
        have ht : t ≠ [] := by
          intro he; rw [he] at h; simp [List.dropWhile] at h
        rw [ih h]
        cases t with
        | nil => exact absurd rfl ht
        | cons x xs => simp
      · simp [List.dropWhile, hb]

/-- A list of length at least two whose first and last elements satisfy `q`
has at least two elements satisfying `q`. -/
theorem two_le_countP_of_ends (q : Char → Bool) (t : List Char)
    (hlen : 2 ≤ t.length)
    (hh : ∀ a, t.head? = some a → q a = true)
    (hl : ∀ b, t.getLast? = some b → q b = true) :
    2 ≤ t.countP q := by
  match t with
  | [] => simp at hlen
  | [a] => simp at hlen
  | a :: b :: r =>
      have ha : q a = true := hh a rfl
      have hbr : (b :: r) ≠ [] := by simp
      have hlast : ∃ c, (b :: r).getLast? = some c := by
        cases hg : (b :: r).getLast? with
        | none => simp [List.getLast?_eq_none_iff] at hg
        | some c => exact ⟨c, rfl⟩
      obtain ⟨c, hc⟩ := hlast
      have hqc : q c = true := by
        apply hl
        rw [List.getLast?_cons_cons]
        exact hc
      have hmem : c ∈ b :: r := by
        have hg := List.getLast?_eq_getLast (b :: r) hbr
        rw [hg] at hc
        injection hc with hc
        rw [← hc]
        exact List.getLast_mem hbr
      have h1 : 0 < (b :: r).countP q := by
        rw [List.countP_pos_iff]
        exact ⟨c, hmem, hqc⟩
      have h2 : (a :: b :: r).countP q = (b :: r).countP q + 1 := by
        simp [List.countP_cons, ha]
      omega

/-- Equivalence the spec asserts: the guard `fullTranscript.trim().length < 2`
holds exactly when the transcript has fewer than 2 non-whitespace characters. -/
theorem jsTrim_length_lt_two_iff (l : List Char) :
    (jsTrim l).length < 2 ↔ countNonWs l < 2 := by
  constructor
  · intro h
    have := countNonWs_jsTrim l
    have hle : countNonWs (jsTrim l) ≤ (jsTrim l).length := List.countP_le_length _
    omega
  · intro h
    by_contra hlen
    push_neg at hlen
    have h2 : 2 ≤ countNonWs (jsTrim l) := by
      apply two_le_countP_of_ends
      · exact hlen
      · intro a ha
        -- head of the trimmed list is the last of the inner dropWhile result
        unfold jsTrim at ha
        rw [List.head?_reverse] at ha
        have hne : (l.dropWhile isJsWs).reverse.dropWhile isJsWs ≠ [] := by
          intro he
          unfold jsTrim at hlen
          rw [he] at hlen
          simp at hlen
        rw [getLast?_dropWhile _ _ hne, List.getLast?_reverse] at ha
        have := head?_dropWhile_not isJsWs l a ha
        simp [this]
      · intro b hb
        unfold jsTrim at hb
        rw [List.getLast?_reverse] at hb
        have := head?_dropWhile_not isJsWs (l.dropWhile isJsWs).reverse b hb
        simp [this]
    rw [countNonWs_jsTrim] at h2
    omega

theorem sanitizeToks_tagOk (cfg : SanitizeConfig) :
    ∀ (toks : List Tok) (skips : List String),
      ∀ tok ∈ sanitizeToks cfg toks skips, tagOk cfg tok = true := by
  intro toks
  induction toks with
  | nil => intro skips tok h; simp [sanitizeToks] at h
  | cons hd rest ih =>
      intro skips tok h
      cases hd with
      | openTag t attrs =>
          cases skips with
          | nil =>
              by_cases h1 : cfg.allowedTags.contains t = true
              · rw [sanitizeToks, if_pos h1] at h
                rcases List.mem_cons.mp h with he | hm
                · subst he
                  simp only [tagOk]
                  rw [h1, Bool.true_and, List.all_eq_true]
                  intro p hp
                  exact (List.mem_filter.mp hp).2
                · exact ih [] tok hm
              · rw [sanitizeToks, if_neg h1] at h
                by_cases h2 : cfg.nonTextTags.contains t = true
                · rw [if_pos h2] at h; exact ih [t] tok h
                · rw [if_neg h2] at h; exact ih [] tok h
          | cons s ss =>
              rw [sanitizeToks] at h
              by_cases h2 : cfg.nonTextTags.contains t = true
              · rw [if_pos h2] at h; exact ih _ tok h
              · rw [if_neg h2] at h; exact ih _ tok h
      | closeTag t =>
          cases skips with
          | nil =>
              by_cases h1 : cfg.allowedTags.contains t = true
              · rw [sanitizeToks, if_pos h1] at h
                rcases List.mem_cons.mp h with he | hm
                · subst he; simp only [tagOk]; exact h1
                · exact ih [] tok hm
              · rw [sanitizeToks, if_neg h1] at h; exact ih [] tok h
          | cons s ss =>
              rw [sanitizeToks] at h
              by_cases h2 : t = s
              · rw [if_pos h2] at h; exact ih _ tok h
              · rw [if_neg h2] at h; exact ih _ tok h
      | text s =>
          cases skips with
          | nil =>
              rw [sanitizeToks] at h
              rcases List.mem_cons.mp h with he | hm
              · subst he; simp [tagOk]
              · exact ih [] tok hm
          | cons s1 ss => rw [sanitizeToks] at h; exact ih _ tok h

theorem sanitizeToks_text_sub (cfg : SanitizeConfig) :
    ∀ (toks : List Tok) (skips : List String) (s : String),
      Tok.text s ∈ sanitizeToks cfg toks skips → Tok.text s ∈ toks := by
  intro toks
  induction toks with
  | nil => intro skips s h; simp [sanitizeToks] at h
  | cons hd rest ih =>
      intro skips s h
      cases hd with
      | openTag t attrs =>
          cases skips with
          | nil =>
              by_cases h1 : cfg.allowedTags.contains t = true
              · rw [sanitizeToks, if_pos h1] at h
                rcases List.mem_cons.mp h with he | hm
                · exact absurd he (by simp)
                · exact List.mem_cons_of_mem _ (ih [] s hm)
              · rw [sanitizeToks, if_neg h1] at h
                by_cases h2 : cfg.nonTextTags.contains t = true
                · rw [if_pos h2] at h; exact List.mem_cons_of_mem _ (ih [t] s h)
                · rw [if_neg h2] at h; exact List.mem_cons_of_mem _ (ih [] s h)
          | cons s1 ss =>
              rw [sanitizeToks] at h
              by_cases h2 : cfg.nonTextTags.contains t = true
              · rw [if_pos h2] at h; exact List.mem_cons_of_mem _ (ih _ s h)
              · rw [if_neg h2] at h; exact List.mem_cons_of_mem _ (ih _ s h)
      | closeTag t =>
          cases skips with
          | nil =>
              by_cases h1 : cfg.allowedTags.contains t = true
              · rw [sanitizeToks, if_pos h1] at h
                rcases List.mem_cons.mp h with he | hm
                · exact absurd he (by simp)
                · exact List.mem_cons_of_mem _ (ih [] s hm)
              · rw [sanitizeToks, if_neg h1] at h
                exact List.mem_cons_of_mem _ (ih [] s h)
          | cons s1 ss =>
              rw [sanitizeToks] at h
              by_cases h2 : t = s1
              · rw [if_pos h2] at h; exact List.mem_cons_of_mem _ (ih _ s h)
              · rw [if_neg h2] at h; exact List.mem_cons_of_mem _ (ih _ s h)
      | text s0 =>
          cases skips with
          | nil =>
              rw [sanitizeToks] at h
              rcases List.mem_cons.mp h with he | hm
              · rw [List.mem_cons]; left; injection he with he; rw [he]
              · exact List.mem_cons_of_mem _ (ih [] s hm)
          | cons s1 ss =>
              rw [sanitizeToks] at h
              exact List.mem_cons_of_mem _ (ih _ s h)

/-- Each finalize call consumes at least as many credits as it reports
successes: one success costs exactly one unit, every other outcome costs at
most one. -/
theorem finalize_step_bound (k : FinalizeCall) (c : Nat) :
    (if isSuccess (finalizePrescription k.live k.fullTranscript k.context k.env c).outcome
      then 1 else 0)
      + (finalizePrescription k.live k.fullTranscript k.context k.env c).credits ≤ c := by
  unfold finalizePrescription deductCredit
  split
  · simp [isSuccess]
  · by_cases hc : 1 ≤ c
    · simp only [if_pos hc]
      cases hm : k.env.macros with
      | error e => simp [isSuccess]
      | ok ms =>
          cases hl : k.env.llm
              (generateScribePrompt (k.fullTranscript.getD "") k.context ms) with
          | error e => simp [hl, isSuccess]
          | ok raw =>
              by_cases hr : k.env.creditsReadOk = true <;>
                simp [hl, hr, isSuccess] <;> omega
    · simp [if_neg hc, isSuccess]

/-- Over any sequence of finalize calls the number of successes never
exceeds the starting balance. -/
theorem runFinalizeSeq_le (ks : List FinalizeCall) (c : Nat) :
    (runFinalizeSeq ks c).1 ≤ c := by
  induction ks generalizing c with
  | nil => simp [runFinalizeSeq]
  | cons k ks ih =>
      have hstep := finalize_step_bound k c
      have hrec := ih (finalizePrescription k.live k.fullTranscript k.context k.env c).credits
      simp only [runFinalizeSeq]
      omega

/-- C3: on finalize of a live session, when the resolved backend does not
support streaming or the accumulated transcript has fewer than 2
non-whitespace characters (the empty transcript included), the handler emits
the fall-back-to-upload event and returns with zero ledger calls and zero
gateway calls; otherwise the pipeline is entered (the ledger is consulted)
and, once the macro fetch succeeds on a positive balance, the gateway is
invoked with the prompt built from the transcript and caller context.  The
code's guard `fullTranscript.trim().length < 2` is proved equivalent to
"fewer than 2 non-whitespace characters". -/
theorem c3_finalize_fallback :
    (∀ l : List Char, (jsTrim l).length < 2 ↔ countNonWs l < 2)
  ∧ (∀ (live : Bool) (t : Option String) (ctx : String) (env : ScribeEnv) (c : Nat),
      live = false ∨ countNonWs ((t.getD "").data) < 2 →
      finalizePrescription live t ctx env c = ⟨.useBackupUpload, c, 0, []⟩)
  ∧ (∀ (t ctx : String) (env : ScribeEnv) (c : Nat) (ms : List MacroItem),
      2 ≤ (jsTrim t.data).length →
      (finalizePrescription true (some t) ctx env c).deductCalls = 1
      ∧ (1 ≤ c → env.macros = .ok ms →
          (finalizePrescription true (some t) ctx env c).llmPrompts
            = [generateScribePrompt t ctx ms])) := by
  refine ⟨jsTrim_length_lt_two_iff, ?_, ?_⟩
  · intro live t ctx env c h
    have hg : (!live || jsFalsyStr t ||
        decide ((jsTrim ((t.getD "")).data).length < 2)) = true := by
      rcases h with h | h
      · subst h; rfl
      · have := (jsTrim_length_lt_two_iff ((t.getD "").data)).mpr h
        simp [this]
    unfold finalizePrescription
    simp only [hg, if_true]
  · intro t ctx env c ms hlen
    have hne : t.data.isEmpty = false := by
      cases hd : t.data with
      | nil =>
          exfalso
          have : jsTrim t.data = [] := by rw [hd]; rfl
          rw [this] at hlen
          simp at hlen
      | cons a l => rfl
    have hg : (!(true : Bool) || jsFalsyStr (some t) ||
        decide ((jsTrim (((some t : Option String)).getD "").data).length < 2)) = false := by
      simp [jsFalsyStr, hne]
      omega
    constructor
    · unfold finalizePrescription
      rw [if_neg (by rw [hg]; simp)]
      unfold deductCredit
      by_cases hc : 1 ≤ c
      · simp only [if_pos hc]
        cases hm : env.macros with
        | error e => simp
        | ok ms2 =>
            cases hl : env.llm (generateScribePrompt t ctx ms2) with
            | error e => simp [hl]
            | ok raw => by_cases hr : env.creditsReadOk = true <;> simp [hl, hr]
      · simp only [if_neg hc]
    · intro hc hm
      unfold finalizePrescription
      rw [if_neg (by rw [hg]; simp)]
      unfold deductCredit
      simp only [if_pos hc, hm]
      cases hl : env.llm (generateScribePrompt t ctx ms) with
      | error e => simp [hl]
      | ok raw => by_cases hr : env.creditsReadOk = true <;> simp [hl, hr]

/-- C3 witness: the empty transcript falls back to upload without touching
the ledger, and a two-letter transcript enters the credit-gated pipeline. -/
theorem c3_witness :
    finalizePrescription true (some "") "" wScribeEnv 5
        = ⟨.useBackupUpload, 5, 0, []⟩
    ∧ (finalizePrescription true (some "ab") "" wScribeEnv 5).deductCalls = 1 :=
  ⟨c3_finalize_fallback.2.1 true (some "") "" wScribeEnv 5 (Or.inr (by decide)),
   (c3_finalize_fallback.2.2 "ab" "" wScribeEnv 5 [] (by decide)).1⟩

/-- C1: a finalize invocation by a caller with zero balance — live
`finalize-prescription` (past the fallback guard), `processS3` (past its
validation), or `processBackup` — fails with the distinct
insufficient-credits result, issues no text-generation (or transcription)
provider call, and leaves the balance at zero; `deductCredit` deducts
exactly one unit iff the balance is at least one; and over any sequence of
finalize calls against a caller with balance N the number of successful
completions never exceeds N. -/
theorem c1_insufficient_credits :
    (∀ (t ctx : String) (env : ScribeEnv),
        2 ≤ (jsTrim t.data).length →
        finalizePrescription true (some t) ctx env 0 = ⟨.lowBalance, 0, 1, []⟩)
  ∧ (∀ (uid key ctx : String) (env : OneShotEnv),
        hasPrefixChars ("uploads/" ++ uid ++ "/").data key.data = true →
        processS3 true true uid key ctx env 0
          = ⟨.insufficientCredits, 0, 1, [], []⟩)
  ∧ (∀ (fm fn : Option String) (ctx : String) (env : OneShotEnv),
        processBackup true true fm fn ctx env 0
          = ⟨.insufficientCredits, 0, 1, [], []⟩)
  ∧ (∀ c : Nat, (deductCredit c).2 = true ↔ 1 ≤ c)
  ∧ (∀ c : Nat, (deductCredit c).1 = if 1 ≤ c then c - 1 else c)
  ∧ (∀ (ks : List FinalizeCall) (n : Nat), (runFinalizeSeq ks n).1 ≤ n) := by
  refine ⟨?_, ?_, ?_, ?_, ?_, runFinalizeSeq_le⟩
  · intro t ctx env hlen
    have hne : t.data.isEmpty = false := by
      cases hd : t.data with
      | nil =>
          exfalso
          have : jsTrim t.data = [] := by rw [hd]; rfl
          rw [this] at hlen
          simp at hlen
      | cons a l => rfl
    unfold finalizePrescription
    rw [if_neg (by simp [jsFalsyStr, hne]; omega)]
    unfold deductCredit
    simp
  · intro uid key ctx env hpre
    have hne : key.data.isEmpty = false := by
      cases hd : key.data with
      | nil =>
          exfalso
          have hu : ("uploads/" ++ uid ++ "/").data
              = 'u' :: ("ploads/".data ++ uid.data ++ "/".data) := by
            simp [String.data_append]
          rw [hu, hd] at hpre
          simp [hasPrefixChars] at hpre
      | cons a l => rfl
    have hpre2 : hasPrefixChars
        ('u' :: 'p' :: 'l' :: 'o' :: 'a' :: 'd' :: 's' :: '/' :: (uid.data ++ ['/']))
        key.data = true := by simpa using hpre
    unfold processS3
    rw [if_neg (by simp)]
    rw [if_neg (by simp [hne, hpre2])]
    rw [if_neg (by simp)]
    unfold deductCredit
    simp
  · intro fm fn ctx env
    unfold processBackup
    rw [if_neg (by simp)]
    rw [if_neg (by simp)]
    unfold deductCredit
    simp
  · intro c
    unfold deductCredit
    by_cases hc : 1 ≤ c <;> simp [hc]
  · intro c
    unfold deductCredit
    by_cases hc : 1 ≤ c <;> simp [hc]

/-- C1 witness: concrete zero-balance callers across all three finalize
surfaces, with concrete collaborator worlds. -/
theorem c1_witness :
    finalizePrescription true (some "ab") "" wScribeEnv 0 = ⟨.lowBalance, 0, 1, []⟩
    ∧ processS3 true true "7" "uploads/7/a.wav" "" wOneShotEnv 0
        = ⟨.insufficientCredits, 0, 1, [], []⟩
    ∧ processBackup true true (some "audio/webm") (some "a.webm") "" wOneShotEnv 0
        = ⟨.insufficientCredits, 0, 1, [], []⟩ :=
  ⟨c1_insufficient_credits.1 "ab" "" wScribeEnv (by decide),
   c1_insufficient_credits.2.1 "7" "uploads/7/a.wav" "" wOneShotEnv (by decide),
   c1_insufficient_credits.2.2.1 (some "audio/webm") (some "a.webm") "" wOneShotEnv⟩

/-- C10 (implicit): when the credit deduction succeeds but a later step of
the pipeline throws — the macro fetch, the text-generation call, or the
fresh balance read — the caller's balance stays reduced by one (no refund is
issued) and the caller receives only an error result carrying no HTML; the
same holds on the one-shot `processS3` path when the scribe call fails after
the deduction. -/
theorem c10_no_refund :
    (∀ (t ctx : String) (env : ScribeEnv) (c : Nat) (e : String),
        2 ≤ (jsTrim t.data).length → 1 ≤ c →
        env.macros = .error e →
        finalizePrescription true (some t) ctx env c
          = ⟨.aiProcessingFailed, c - 1, 1, []⟩)
  ∧ (∀ (t ctx : String) (env : ScribeEnv) (c : Nat) (ms : List MacroItem) (e : String),
        2 ≤ (jsTrim t.data).length → 1 ≤ c →
        env.macros = .ok ms →
        env.llm (generateScribePrompt t ctx ms) = .error e →
        finalizePrescription true (some t) ctx env c
          = ⟨.aiProcessingFailed, c - 1, 1, [generateScribePrompt t ctx ms]⟩)
  ∧ (∀ (t ctx : String) (env : ScribeEnv) (c : Nat) (ms : List MacroItem) (raw : String),
        2 ≤ (jsTrim t.data).length → 1 ≤ c →
        env.macros = .ok ms →
        env.llm (generateScribePrompt t ctx ms) = .ok raw →
        env.creditsReadOk = false →
        finalizePrescription true (some t) ctx env c
          = ⟨.aiProcessingFailed, c - 1, 1, [generateScribePrompt t ctx ms]⟩)
  ∧ (∀ (uid key ctx : String) (env : OneShotEnv) (c : Nat) (audio : List Nat)
        (transcript : String) (tcalls : List TransCall) (ms : List MacroItem) (e : String),
        hasPrefixChars ("uploads/" ++ uid ++ "/").data key.data = true → 1 ≤ c →
        env.s3Fetch = .ok audio →
        transcribe env.trans audio (basenameOf key) (mimeForKey key)
          = (.ok transcript, tcalls) →
        env.macros = .ok ms →
        env.llm (generateScribePrompt transcript ctx ms) = .error e →
        processS3 true true uid key ctx env c
          = ⟨.serverError e, c - 1, 1, tcalls,
              [generateScribePrompt transcript ctx ms]⟩) := by
  have hguard : ∀ (t : String), 2 ≤ (jsTrim t.data).length →
      (!(true : Bool) || jsFalsyStr (some t) ||
        decide ((jsTrim (((some t : Option String)).getD "").data).length < 2)) = false := by
    intro t hlen
    have hne : t.data.isEmpty = false := by
      cases hd : t.data with
      | nil =>
          exfalso
          have : jsTrim t.data = [] := by rw [hd]; rfl
          rw [this] at hlen
          simp at hlen
      | cons a l => rfl
    simp [jsFalsyStr, hne]
    omega
  refine ⟨?_, ?_, ?_, ?_⟩
  · intro t ctx env c e hlen hc hm
    unfold finalizePrescription
    rw [if_neg (by rw [hguard t hlen]; simp)]
    unfold deductCredit
    simp only [if_pos hc, hm]
  · intro t ctx env c ms e hlen hc hm hl
    unfold finalizePrescription
    rw [if_neg (by rw [hguard t hlen]; simp)]
    unfold deductCredit
    simp only [if_pos hc, hm]
    simp [hl]
  · intro t ctx env c ms raw hlen hc hm hl hr
    unfold finalizePrescription
    rw [if_neg (by rw [hguard t hlen]; simp)]
    unfold deductCredit
    simp only [if_pos hc, hm]
    simp [hl, hr]
  · intro uid key ctx env c audio transcript tcalls ms e hpre hc hs3 htr hm hl
    have hne : key.data.isEmpty = false := by
      cases hd : key.data with
      | nil =>
          exfalso
          have hu : ("uploads/" ++ uid ++ "/").data
              = 'u' :: ("ploads/".data ++ uid.data ++ "/".data) := by
            simp [String.data_append]
          rw [hu, hd] at hpre
          simp [hasPrefixChars] at hpre
      | cons a l => rfl
    have hpre2 : hasPrefixChars
        ('u' :: 'p' :: 'l' :: 'o' :: 'a' :: 'd' :: 's' :: '/' :: (uid.data ++ ['/']))
        key.data = true := by simpa using hpre
    unfold processS3
    rw [if_neg (by simp)]
    rw [if_neg (by simp [hne, hpre2])]
    rw [if_neg (by simp)]
    unfold deductCredit
    simp only [if_pos hc, hs3, htr, hm]
    simp [hl]

/-- C10 witness: with balance 5 and a failing text-generation call, the live
and S3 paths both end with balance 4, no refund, and an error result with no
HTML. -/
theorem c10_witness :
    finalizePrescription true (some "ab") "" wScribeEnvFail 5
        = ⟨.aiProcessingFailed, 4, 1, [generateScribePrompt "ab" "" []]⟩
    ∧ processS3 true true "7" "uploads/7/a.wav" "" wOneShotEnvFail 5
        = ⟨.serverError "provider down", 4, 1,
            [⟨"deepgram", "nova-2", "en-IN", "a.wav", "audio/wav"⟩],
            [generateScribePrompt "patient has fever" "" []]⟩ :=
  ⟨c10_no_refund.2.1 "ab" "" wScribeEnvFail 5 [] "provider down"
      (by decide) (by decide) rfl rfl,
   c10_no_refund.2.2.2 "7" "uploads/7/a.wav" "" wOneShotEnvFail 5 [1, 2, 3]
      "patient has fever" [⟨"deepgram", "nova-2", "en-IN", "a.wav", "audio/wav"⟩] []
      "provider down" (by decide) (by decide) rfl (by rfl) rfl rfl⟩

theorem finalize_outcome_sanitized (live : Bool) (t : Option String)
    (ctx : String) (env : ScribeEnv) (c : Nat) :
    sanitizedFin (finalizePrescription live t ctx env c).outcome := by
  unfold finalizePrescription
  split
  · simp_all [sanitizedFin]
  · cases hdc : deductCredit c with
  | mk c2 ok =>
      cases ok with
      | false => simp_all [sanitizedFin]
      | true =>
          cases hm : env.macros with
          | error e => simp_all [sanitizedFin]
          | ok ms =>
              cases hl : env.llm (generateScribePrompt (t.getD "") ctx ms) with
              | error e => simp_all [sanitizedFin]
              | ok raw =>
                  by_cases hr : env.creditsReadOk = true <;>
                    simp_all [sanitizedFin]

theorem processS3_outcome_sanitized (authed s3c : Bool) (uid key ctx : String)
    (env : OneShotEnv) (c : Nat) :
    sanitizedOne (processS3 authed s3c uid key ctx env c).outcome := by
  unfold processS3
  split
  · simp_all [sanitizedOne]
  · split
    · simp_all [sanitizedOne]
    · split
      · simp_all [sanitizedOne]
      · cases hdc : deductCredit c with
  | mk c2 ok =>
        cases ok with
        | false => simp_all [sanitizedOne]
        | true =>
            cases hs3 : env.s3Fetch with
            | error e => simp_all [sanitizedOne]
            | ok audio =>
                cases htr : transcribe env.trans audio (basenameOf key) (mimeForKey key) with
  | mk tres tcalls =>
                cases tres with
                | error e => simp_all [sanitizedOne]
                | ok transcript =>
                    cases hm : env.macros with
                    | error e => simp_all [sanitizedOne]
                    | ok ms =>
                        cases hl : env.llm (generateScribePrompt transcript ctx ms) with
                        | error e => simp_all [sanitizedOne]
                        | ok raw =>
                            by_cases hr : env.creditsReadOk = true <;>
                              simp_all [sanitizedOne]

theorem processBackup_outcome_sanitized (authed fp : Bool)
    (fm fn : Option String) (ctx : String) (env : OneShotEnv) (c : Nat) :
    sanitizedOne (processBackup authed fp fm fn ctx env c).outcome := by
  unfold processBackup
  split
  · simp_all [sanitizedOne]
  · split
    · simp_all [sanitizedOne]
    · cases hdc : deductCredit c with
  | mk c2 ok =>
      cases ok with
      | false => simp_all [sanitizedOne]
      | true =>
          cases hf : env.fileRead with
          | error e => simp_all [sanitizedOne]
          | ok buffer =>
              cases htr : transcribe env.trans buffer
                  (if (fn.getD "upload.webm").data = [] then "upload.webm"
                    else fn.getD "upload.webm")
                  (if (fm.getD "audio/webm").data = [] then "audio/webm"
                    else fm.getD "audio/webm") with
  | mk tres tcalls =>
              cases tres with
              | error e => simp_all [sanitizedOne]
              | ok transcript =>
                  cases hm : env.macros with
                  | error e => simp_all [sanitizedOne]
                  | ok ms =>
                      cases hl : env.llm (generateScribePrompt transcript ctx ms) with
                      | error e => simp_all [sanitizedOne]
                      | ok raw =>
                          by_cases hr : env.creditsReadOk = true <;>
                            simp_all [sanitizedOne]

/-- Invert a success equation into the sanitized-source witness. -/
theorem finalize_success_sanitized (live : Bool) (t : Option String)
    (ctx : String) (env : ScribeEnv) (c : Nat) (html : List Tok) (rem : Nat)
    (h : (finalizePrescription live t ctx env c).outcome = .success html rem) :
    ∃ src, html = sanitizeContent src := by
  have := finalize_outcome_sanitized live t ctx env c
  rw [h] at this
  exact this

theorem processS3_success_sanitized (authed s3c : Bool) (uid key ctx : String)
    (env : OneShotEnv) (c : Nat) (html : List Tok) (rem : Nat)
    (h : (processS3 authed s3c uid key ctx env c).outcome = .success html rem) :
    ∃ src, html = sanitizeContent src := by
  have := processS3_outcome_sanitized authed s3c uid key ctx env c
  rw [h] at this
  exact this

theorem processBackup_success_sanitized (authed fp : Bool)
    (fm fn : Option String) (ctx : String) (env : OneShotEnv) (c : Nat)
    (html : List Tok) (rem : Nat)
    (h : (processBackup authed fp fm fn ctx env c).outcome = .success html rem) :
    ∃ src, html = sanitizeContent src := by
  have := processBackup_outcome_sanitized authed fp fm fn ctx env c
  rw [h] at this
  exact this

/-- A successful review response only ever carries sanitized HTML. -/
theorem review_success_sanitized (llm : Except String String)
    (parse : List Char → List Tok) (html : List Tok)
    (h : reviewHandler llm parse = .ok html) :
    ∃ src, html = sanitizeContent src := by
  unfold reviewHandler at h
  split at h
  · simp_all
  · simp_all
    exact ⟨_, h.symm⟩

/-- A successful format response only ever carries sanitized HTML. -/
theorem format_success_sanitized (llm : Except String String)
    (extractHtml : String → String) (parse : List Char → List Tok)
    (html : List Tok)
    (h : formatHandler llm extractHtml parse = .ok html) :
    ∃ src, html = sanitizeContent src := by
  unfold formatHandler at h
  split at h
  · simp_all
  · simp_all
    exact ⟨_, h.symm⟩

/-- C2: every HTML response produced by the five surfaces passes through
`sanitizeContent`, and the sanitizer guarantees: every tag in the output is
on the fixed allow-list (in particular no script tag survives, with its
character data dropped as well), every surviving attribute is on the
attribute allow-list with URL-valued attributes restricted to
http/https/mailto, and disallowed content is discarded — every text node of
the output already occurred in the input, so no markup is escaped-and-kept. -/
theorem c2_sanitize_allowlist :
    (∀ (toks : List Tok) (t : String) (attrs : List (String × String)),
        Tok.openTag t attrs ∈ sanitizeContent toks →
        t ∈ serverSanitizeConfig.allowedTags
        ∧ ∀ p ∈ attrs, p.1 ∈ serverSanitizeConfig.allowedAttributes
            ∧ (isUrlAttrName p.1 = true → schemeOk serverSanitizeConfig p.2 = true))
  ∧ (∀ (toks : List Tok) (t : String), Tok.closeTag t ∈ sanitizeContent toks →
        t ∈ serverSanitizeConfig.allowedTags)
  ∧ "script" ∉ serverSanitizeConfig.allowedTags
  ∧ (∀ (toks : List Tok) (attrs : List (String × String)),
        Tok.openTag "script" attrs ∉ sanitizeContent toks)
  ∧ (∀ (toks : List Tok) (s : String),
        Tok.text s ∈ sanitizeContent toks → Tok.text s ∈ toks)
  ∧ sanitizeContent
      [Tok.openTag "script" [], Tok.text "alert(1)", Tok.closeTag "script"] = []
  ∧ (∀ (live : Bool) (t : Option String) (ctx : String) (env : ScribeEnv)
        (c : Nat) (html : List Tok) (rem : Nat),
        (finalizePrescription live t ctx env c).outcome = .success html rem →
        ∀ tg a, Tok.openTag tg a ∈ html → tg ∈ serverSanitizeConfig.allowedTags)
  ∧ (∀ (authed s3c : Bool) (uid key ctx : String) (env : OneShotEnv) (c : Nat)
        (html : List Tok) (rem : Nat),
        (processS3 authed s3c uid key ctx env c).outcome = .success html rem →
        ∀ tg a, Tok.openTag tg a ∈ html → tg ∈ serverSanitizeConfig.allowedTags)
  ∧ (∀ (authed fp : Bool) (fm fn : Option String) (ctx : String)
        (env : OneShotEnv) (c : Nat) (html : List Tok) (rem : Nat),
        (processBackup authed fp fm fn ctx env c).outcome = .success html rem →
        ∀ tg a, Tok.openTag tg a ∈ html → tg ∈ serverSanitizeConfig.allowedTags)
  ∧ (∀ (llm : Except String String) (parse : List Char → List Tok)
        (html : List Tok), reviewHandler llm parse = .ok html →
        ∀ tg a, Tok.openTag tg a ∈ html → tg ∈ serverSanitizeConfig.allowedTags)
  ∧ (∀ (llm : Except String String) (extractHtml : String → String)
        (parse : List Char → List Tok) (html : List Tok),
        formatHandler llm extractHtml parse = .ok html →
        ∀ tg a, Tok.openTag tg a ∈ html → tg ∈ serverSanitizeConfig.allowedTags) := by
  have hopen : ∀ (toks : List Tok) (t : String) (attrs : List (String × String)),
      Tok.openTag t attrs ∈ sanitizeContent toks →
      t ∈ serverSanitizeConfig.allowedTags
      ∧ ∀ p ∈ attrs, p.1 ∈ serverSanitizeConfig.allowedAttributes
          ∧ (isUrlAttrName p.1 = true → schemeOk serverSanitizeConfig p.2 = true) := by
    intro toks t attrs h
    have := sanitizeToks_tagOk serverSanitizeConfig toks [] _ h
    simp only [tagOk, Bool.and_eq_true, List.all_eq_true] at this
    obtain ⟨ht, ha⟩ := this
    refine ⟨by simpa [List.contains] using ht, ?_⟩
    intro p hp
    have := ha p hp
    simp only [attrAllowed, Bool.and_eq_true, Bool.or_eq_true, Bool.not_eq_true'] at this
    obtain ⟨hn, hs⟩ := this
    refine ⟨by simpa [List.contains] using hn, ?_⟩
    intro hurl
    rcases hs with hs | hs
    · rw [hurl] at hs; cases hs
    · exact hs
  refine ⟨hopen, ?_, by decide, ?_,
      fun toks s h => sanitizeToks_text_sub serverSanitizeConfig toks [] s h, by rfl,
      ?_, ?_, ?_, ?_, ?_⟩
  · intro toks t h
    have := sanitizeToks_tagOk serverSanitizeConfig toks [] _ h
    simp only [tagOk] at this
    simpa [List.contains] using this
  · intro toks attrs h
    have := (hopen toks "script" attrs h).1
    revert this
    decide
  · intro live t ctx env c html rem h tg a hmem
    obtain ⟨src, rfl⟩ := finalize_success_sanitized live t ctx env c html rem h
    exact (hopen src tg a hmem).1
  · intro authed s3c uid key ctx env c html rem h tg a hmem
    obtain ⟨src, rfl⟩ := processS3_success_sanitized authed s3c uid key ctx env c html rem h
    exact (hopen src tg a hmem).1
  · intro authed fp fm fn ctx env c html rem h tg a hmem
    obtain ⟨src, rfl⟩ := processBackup_success_sanitized authed fp fm fn ctx env c html rem h
    exact (hopen src tg a hmem).1
  · intro llm parse html h tg a hmem
    obtain ⟨src, rfl⟩ := review_success_sanitized llm parse html h
    exact (hopen src tg a hmem).1
  · intro llm extractHtml parse html h tg a hmem
    obtain ⟨src, rfl⟩ := format_success_sanitized llm extractHtml parse html h
    exact (hopen src tg a hmem).1

/-- C2 witness: a provider payload smuggling a script tag and a javascript
URL loses both under sanitization while allowed markup survives. -/
theorem c2_witness :
    sanitizeContent
        [Tok.openTag "p" [("class", "x"), ("onclick", "evil()"),
            ("href", "javascript:evil()")],
          Tok.text "hello",
          Tok.openTag "script" [], Tok.text "alert(1)", Tok.closeTag "script",
          Tok.closeTag "p"]
      = [Tok.openTag "p" [("class", "x")], Tok.text "hello", Tok.closeTag "p"]
    ∧ "p" ∈ serverSanitizeConfig.allowedTags
    ∧ (Tok.openTag "script" [] ∉ sanitizeContent
        [Tok.openTag "script" [], Tok.text "x", Tok.closeTag "script"]) :=
  ⟨by rfl, by decide,
   c2_sanitize_allowlist.2.2.2.1
     [Tok.openTag "script" [], Tok.text "x", Tok.closeTag "script"] []⟩

/-- C4 counterexample: two frames arriving while the first open attempt is
suspended at the settings read both enter `setupDeepgram`, so two
`deepgram.listen.live` open requests are issued for one session — the claim
that at most one channel-open request is issued per session is false on this
code. -/
theorem c4_counterexample :
    (runAudio true [.frame, .frame, .settingsResolved, .settingsResolved]
        audioInit).opensIssued = 2
    ∧ ¬ (∀ evs : List AudioEvent,
          (runAudio true evs audioInit).opensIssued ≤ 1) := by
  constructor
  · rfl
  · intro h
    have h2 := h [.frame, .frame, .settingsResolved, .settingsResolved]
    rw [show (runAudio true [.frame, .frame, .settingsResolved, .settingsResolved]
        audioInit).opensIssued = 2 from rfl] at h2
    omega

/-- C4 amended: every single event-loop turn issues at most one open
request, a frame arriving with the channel reference already set issues
none, and when frame handling is serialized — each suspended settings read
resolves before the next frame arrives — at most one channel-open is issued
over the whole session; but nothing guards overlapping open attempts, which
is what the counterexample exploits. -/
theorem c4_amended :
    (∀ (live : Bool) (s : AudioSession) (e : AudioEvent),
        (audioStep live s e).opensIssued ≤ s.opensIssued + 1)
    ∧ (∀ (live : Bool) (s : AudioSession),
        s.dgConnection.isSome = true → audioStep live s .frame = s)
    ∧ (∀ n : Nat, (runAudioAtomic true n audioInit).opensIssued ≤ 1) := by
  refine ⟨?_, ?_, ?_⟩
  · intro live s e
    cases e with
    | frame =>
        simp only [audioStep]
        split
        · omega
        · split <;> simp
    | settingsResolved =>
        simp only [audioStep]
        cases hp : s.pendingOpens <;> simp
  · intro live s h
    unfold audioStep
    cases hs : s.dgConnection with
    | none => rw [hs] at h; simp at h
    | some u => simp [hs]
  · have inv : ∀ (s : AudioSession),
        s.pendingOpens = 0 → (s.dgConnection = none → s.opensIssued = 0) →
        s.opensIssued ≤ 1 →
        (audioAtomic true s).pendingOpens = 0
        ∧ ((audioAtomic true s).dgConnection = none →
            (audioAtomic true s).opensIssued = 0)
        ∧ (audioAtomic true s).opensIssued ≤ 1 := by
      intro s h0 hn h1
      cases hs : s.dgConnection with
      | none =>
          have hz : s.opensIssued = 0 := hn hs
          simp [audioAtomic, audioStep, hs, h0, hz]
      | some u =>
          have ha : audioAtomic true s = s := by
            simp [audioAtomic, audioStep, hs, h0]
          rw [ha]
          exact ⟨h0, hn, h1⟩
    have run : ∀ (n : Nat) (s : AudioSession),
        s.pendingOpens = 0 → (s.dgConnection = none → s.opensIssued = 0) →
        s.opensIssued ≤ 1 →
        (runAudioAtomic true n s).opensIssued ≤ 1 := by
      intro n
      induction n with
      | zero => intro s _ _ h1; exact h1
      | succ m ih =>
          intro s h0 hn h1
          obtain ⟨a, b, c⟩ := inv s h0 hn h1
          exact ih (audioAtomic true s) a b c
    intro n
    exact run n audioInit rfl (fun _ => rfl) (by simp [audioInit])

/-- C6 counterexample: with the channel open and the keep-alive timer
running, a channel-level provider error event leaves the timer running and
the channel reference intact — the session does not transition to Closing,
contrary to the claim. -/
theorem c6_counterexample :
    ¬ (∀ s : LiveSession,
        (liveStep s .errorEvt).keepAliveActive = false
        ∧ (liveStep s .errorEvt).dgConnection = none) := by
  intro h
  have h2 := h ⟨some (), true, 0, 0⟩
  simp [liveStep] at h2

/-- C6 amended: a channel-level provider error is logged and otherwise
ignored — the handler only increments the error log, leaving the keep-alive
timer and the channel untouched; Closing (timer stopped, channel cleared)
happens only on the provider Close event, client finalize, or disconnect. -/
theorem c6_amended :
    (∀ s : LiveSession,
        liveStep s .errorEvt = { s with errorsLogged := s.errorsLogged + 1 })
    ∧ (∀ s : LiveSession, (liveStep s .closeEvt).keepAliveActive = false
        ∧ (liveStep s .closeEvt).dgConnection = none)
    ∧ (∀ s : LiveSession, (liveStep s .finalizeEvt).keepAliveActive = false
        ∧ (liveStep s .finalizeEvt).dgConnection = none)
    ∧ (∀ s : LiveSession, (liveStep s .disconnectEvt).keepAliveActive = false) :=
  ⟨fun _ => rfl, fun _ => ⟨rfl, rfl⟩, fun _ => ⟨rfl, rfl⟩, fun _ => rfl⟩

/-- C8: the keep-alive interval is the fixed 8000 ms, below the provider's
~10000 ms idle-disconnect window; provider open acknowledgment installs the
timer; an installed timer's tick sends a keep-alive exactly when the channel
reports ready (and sends nothing otherwise); and finalize, disconnect and
provider-side close all stop the timer. -/
theorem c8_keepalive :
    keepAliveIntervalMs = 8000
    ∧ keepAliveIntervalMs < deepgramIdleTimeoutMs
    ∧ (∀ s : LiveSession, (liveStep s .openEvt).keepAliveActive = true)
    ∧ (∀ s : LiveSession, s.keepAliveActive = true → s.dgConnection.isSome = true →
        (liveStep s (.tick true)).keepAlivesSent = s.keepAlivesSent + 1)
    ∧ (∀ s : LiveSession, s.keepAliveActive = false →
        (liveStep s (.tick true)).keepAlivesSent = s.keepAlivesSent)
    ∧ (∀ s : LiveSession, (liveStep s (.tick false)).keepAlivesSent = s.keepAlivesSent)
    ∧ (∀ s : LiveSession, (liveStep s .finalizeEvt).keepAliveActive = false)
    ∧ (∀ s : LiveSession, (liveStep s .disconnectEvt).keepAliveActive = false)
    ∧ (∀ s : LiveSession, (liveStep s .closeEvt).keepAliveActive = false) := by
  refine ⟨rfl, by decide, fun s => rfl, ?_, ?_, ?_, fun s => rfl, fun s => rfl, fun s => rfl⟩
  · intro s h1 h2
    simp [liveStep, h1, h2]
  · intro s h1
    simp [liveStep, h1]
  · intro s
    simp [liveStep]

/-- C8 witness: a ready open session with the timer installed sends one
keep-alive on a tick. -/
theorem c8_witness :
    (liveStep ⟨some (), true, 0, 0⟩ (.tick true)).keepAlivesSent = 0 + 1
    ∧ (liveStep ⟨some (), false, 0, 0⟩ (.tick true)).keepAlivesSent = 0 :=
  ⟨c8_keepalive.2.2.2.1 ⟨some (), true, 0, 0⟩ rfl rfl,
   c8_keepalive.2.2.2.2.1 ⟨some (), false, 0, 0⟩ rfl⟩

/-- C5: a schema-constrained request to the Gemini adapter whose model
rejects schema-constrained calls (the backend-specific error signature) is
retried exactly once as a plain-text completion and the successful
plain-text result is returned — two provider calls in total, the second
without the schema; an error without the signature propagates after a single
call. -/
theorem c5_schema_fallback :
    (∀ (env : LlmEnv) (cfg : LlmConfig) (task prompt : String) (sch : RespSchema)
        (fj : Bool) (e : GeminiErr) (txt : String),
        lowerStr cfg.provider = "gemini" →
        env.geminiConfigured = true →
        env.geminiGenerate ⟨cfg.model, prompt, some sch⟩ = .error e →
        schemaUnsupportedMsg e.message = true →
        env.geminiGenerate ⟨cfg.model, prompt, none⟩ = .ok txt →
        runLlmTask env cfg task prompt (some sch) fj
          = (.ok ⟨txt, "gemini", cfg.model⟩,
             [.gemini ⟨cfg.model, prompt, some sch⟩, .gemini ⟨cfg.model, prompt, none⟩]))
  ∧ (∀ (env : LlmEnv) (cfg : LlmConfig) (task prompt : String) (sch : RespSchema)
        (fj : Bool) (e : GeminiErr),
        lowerStr cfg.provider = "gemini" →
        env.geminiConfigured = true →
        env.geminiGenerate ⟨cfg.model, prompt, some sch⟩ = .error e →
        schemaUnsupportedMsg e.message = false →
        runLlmTask env cfg task prompt (some sch) fj
          = (.error (.providerError e.message),
             [.gemini ⟨cfg.model, prompt, some sch⟩])) := by
  constructor
  · intro env cfg task prompt sch fj e txt hp hconf h1 hsig h2
    unfold runLlmTask
    simp [hp, hconf, h1, hsig, h2]
  · intro env cfg task prompt sch fj e hp hconf h1 hsig
    unfold runLlmTask
    simp [hp, hconf, h1, hsig]

/-- C5 witness: the concrete schema-rejecting Gemini world returns the
plain-text retry result. -/
theorem c5_witness :
    runLlmTask wLlmEnv ⟨"gemini", "gemini-pro"⟩ "format" "p" (some ⟨0⟩) true
      = (.ok ⟨"plain text result", "gemini", "gemini-pro"⟩,
         [.gemini ⟨"gemini-pro", "p", some ⟨0⟩⟩, .gemini ⟨"gemini-pro", "p", none⟩]) :=
  c5_schema_fallback.1 wLlmEnv ⟨"gemini", "gemini-pro"⟩ "format" "p" ⟨0⟩ true
    ⟨"400 responseSchema is not supported for this model"⟩ "plain text result"
    (by decide) rfl rfl (by decide) rfl

/-- The gateway never issues more than two provider calls. -/
theorem runLlmTask_calls_le (env : LlmEnv) (cfg : LlmConfig)
    (task prompt : String) (rs : Option RespSchema) (fj : Bool) :
    (runLlmTask env cfg task prompt rs fj).2.length ≤ 2 := by
  unfold runLlmTask
  by_cases h1 : lowerStr cfg.provider = "gemini"
  · rw [if_pos h1]
    by_cases hc : env.geminiConfigured = true
    · simp only [hc, Bool.not_true, Bool.false_eq_true, if_false]
      cases rs with
      | none =>
          cases hg : env.geminiGenerate ⟨cfg.model, prompt, none⟩ <;> simp [hg]
      | some sch =>
          cases hg : env.geminiGenerate ⟨cfg.model, prompt, some sch⟩ with
          | ok t => simp [hg]
          | error e =>
              by_cases hs : schemaUnsupportedMsg e.message = true
              · cases hg2 : env.geminiGenerate ⟨cfg.model, prompt, none⟩ <;>
                  simp [hg, hg2, hs]
              · simp [hg, hs]
    · simp [hc]
  · rw [if_neg h1]
    by_cases h2 : lowerStr cfg.provider = "openai"
    · rw [if_pos h2]
      by_cases hc : env.openaiConfigured = true
      · simp only [hc, Bool.not_true, Bool.false_eq_true, if_false]
        cases ho : env.openaiCreate ⟨cfg.model, prompt, rs.isSome || fj⟩ <;> simp [ho]
      · simp [hc]
    · rw [if_neg h2]
      by_cases h3 : lowerStr cfg.provider = "groq"
      · rw [if_pos h3]
        by_cases hc : env.groqKeyPresent = true
        · simp only [hc, Bool.not_true, Bool.false_eq_true, if_false]
          cases hq : env.groqFetch ⟨cfg.model, prompt, rs.isSome || fj⟩ <;> simp [hq]
        · simp [hc]
      · rw [if_neg h3]; simp

/-- Without a schema request the gateway issues at most one call. -/
theorem runLlmTask_calls_le_one (env : LlmEnv) (cfg : LlmConfig)
    (task prompt : String) (fj : Bool) :
    (runLlmTask env cfg task prompt none fj).2.length ≤ 1 := by
  unfold runLlmTask
  by_cases h1 : lowerStr cfg.provider = "gemini"
  · rw [if_pos h1]
    by_cases hc : env.geminiConfigured = true
    · simp only [hc, Bool.not_true, Bool.false_eq_true, if_false]
      cases hg : env.geminiGenerate ⟨cfg.model, prompt, none⟩ <;> simp [hg]
    · simp [hc]
  · rw [if_neg h1]
    by_cases h2 : lowerStr cfg.provider = "openai"
    · rw [if_pos h2]
      by_cases hc : env.openaiConfigured = true
      · simp only [hc, Bool.not_true, Bool.false_eq_true, if_false]
        cases ho : env.openaiCreate ⟨cfg.model, prompt, (none : Option RespSchema).isSome || fj⟩ <;>
          simp [ho]
      · simp [hc]
    · rw [if_neg h2]
      by_cases h3 : lowerStr cfg.provider = "groq"
      · rw [if_pos h3]
        by_cases hc : env.groqKeyPresent = true
        · simp only [hc, Bool.not_true, Bool.false_eq_true, if_false]
          cases hq : env.groqFetch ⟨cfg.model, prompt, (none : Option RespSchema).isSome || fj⟩ <;>
            simp [hq]
        · simp [hc]
      · rw [if_neg h3]; simp

/-- C7: the gateway fails fast with a distinct not-configured error before
any provider call when the resolved backend's credential is absent, throws a
distinct unsupported-provider error for identifiers outside
{gemini, openai, groq} without calling anything, propagates provider and
network errors (with the Groq HTTP status where available), and performs no
retry beyond the single Gemini schema-unsupported fallback: never more than
two provider calls, and at most one whenever no schema is requested. -/
theorem c7_error_taxonomy :
    (∀ (env : LlmEnv) (cfg : LlmConfig) (task prompt : String)
        (rs : Option RespSchema) (fj : Bool),
        lowerStr cfg.provider = "gemini" → env.geminiConfigured = false →
        runLlmTask env cfg task prompt rs fj
          = (.error (.notConfigured "Gemini not configured"), []))
  ∧ (∀ (env : LlmEnv) (cfg : LlmConfig) (task prompt : String)
        (rs : Option RespSchema) (fj : Bool),
        lowerStr cfg.provider = "openai" → env.openaiConfigured = false →
        runLlmTask env cfg task prompt rs fj
          = (.error (.notConfigured "OpenAI not configured"), []))
  ∧ (∀ (env : LlmEnv) (cfg : LlmConfig) (task prompt : String)
        (rs : Option RespSchema) (fj : Bool),
        lowerStr cfg.provider = "groq" → env.groqKeyPresent = false →
        runLlmTask env cfg task prompt rs fj
          = (.error (.notConfigured "GROQ_API_KEY missing"), []))
  ∧ (∀ (env : LlmEnv) (cfg : LlmConfig) (task prompt : String)
        (rs : Option RespSchema) (fj : Bool),
        lowerStr cfg.provider ≠ "gemini" → lowerStr cfg.provider ≠ "openai" →
        lowerStr cfg.provider ≠ "groq" →
        runLlmTask env cfg task prompt rs fj
          = (.error (.unsupportedProvider task cfg.provider), []))
  ∧ (∀ (env : LlmEnv) (cfg : LlmConfig) (task prompt : String) (fj : Bool)
        (e : GeminiErr),
        lowerStr cfg.provider = "gemini" → env.geminiConfigured = true →
        env.geminiGenerate ⟨cfg.model, prompt, none⟩ = .error e →
        runLlmTask env cfg task prompt none fj
          = (.error (.providerError e.message), [.gemini ⟨cfg.model, prompt, none⟩]))
  ∧ (∀ (env : LlmEnv) (cfg : LlmConfig) (task prompt : String)
        (rs : Option RespSchema) (fj : Bool) (e : String),
        lowerStr cfg.provider = "openai" → env.openaiConfigured = true →
        env.openaiCreate ⟨cfg.model, prompt, rs.isSome || fj⟩ = .error e →
        runLlmTask env cfg task prompt rs fj
          = (.error (.providerError e),
             [.openai ⟨cfg.model, prompt, rs.isSome || fj⟩]))
  ∧ (∀ (env : LlmEnv) (cfg : LlmConfig) (task prompt : String)
        (rs : Option RespSchema) (fj : Bool) (status : Nat),
        lowerStr cfg.provider = "groq" → env.groqKeyPresent = true →
        env.groqFetch ⟨cfg.model, prompt, rs.isSome || fj⟩ = .error status →
        runLlmTask env cfg task prompt rs fj
          = (.error (.groqStatus status),
             [.groq ⟨cfg.model, prompt, rs.isSome || fj⟩]))
  ∧ (∀ (env : LlmEnv) (cfg : LlmConfig) (task prompt : String)
        (rs : Option RespSchema) (fj : Bool),
        (runLlmTask env cfg task prompt rs fj).2.length ≤ 2)
  ∧ (∀ (env : LlmEnv) (cfg : LlmConfig) (task prompt : String) (fj : Bool),
        (runLlmTask env cfg task prompt none fj).2.length ≤ 1) := by
  refine ⟨?_, ?_, ?_, ?_, ?_, ?_, ?_, runLlmTask_calls_le, runLlmTask_calls_le_one⟩
  · intro env cfg task prompt rs fj hp hc
    unfold runLlmTask
    simp [hp, hc]
  · intro env cfg task prompt rs fj hp hc
    unfold runLlmTask
    rw [if_neg (by simp [hp])]
    simp [hp, hc]
  · intro env cfg task prompt rs fj hp hc
    unfold runLlmTask
    rw [if_neg (by simp [hp]), if_neg (by simp [hp])]
    simp [hp, hc]
  · intro env cfg task prompt rs fj h1 h2 h3
    unfold runLlmTask
    rw [if_neg (by simpa using h1), if_neg (by simpa using h2),
      if_neg (by simpa using h3)]
  · intro env cfg task prompt fj e hp hc hg
    unfold runLlmTask
    simp [hp, hc, hg]
  · intro env cfg task prompt rs fj e hp hc ho
    unfold runLlmTask
    rw [if_neg (by simp [hp])]
    simp [hp, hc, ho]
  · intro env cfg task prompt rs fj status hp hc hg
    unfold runLlmTask
    rw [if_neg (by simp [hp]), if_neg (by simp [hp])]
    simp [hp, hc, hg]

/-- C7 witness: concrete missing-credential, unknown-provider and
provider-failure worlds (with a mixed-case identifier to exercise the
lower-casing). -/
theorem c7_witness :
    runLlmTask wLlmEnvBare ⟨"Gemini", "gemini-pro"⟩ "scribe" "p" none false
      = (.error (.notConfigured "Gemini not configured"), [])
    ∧ runLlmTask wLlmEnv ⟨"anthropic", "claude"⟩ "scribe" "p" none false
      = (.error (.unsupportedProvider "scribe" "anthropic"), [])
    ∧ runLlmTask wLlmEnvErr ⟨"groq", "llama"⟩ "scribe" "p" none false
      = (.error (.groqStatus 503), [.groq ⟨"llama", "p", false⟩]) :=
  ⟨c7_error_taxonomy.1 wLlmEnvBare ⟨"Gemini", "gemini-pro"⟩ "scribe" "p" none false
      (by decide) rfl,
   c7_error_taxonomy.2.2.2.1 wLlmEnv ⟨"anthropic", "claude"⟩ "scribe" "p" none false
      (by decide) (by decide) (by decide),
   c7_error_taxonomy.2.2.2.2.2.2.1 wLlmEnvErr ⟨"groq", "llama"⟩ "scribe" "p" none
      false 503 (by decide) rfl rfl⟩

/-- Every provider request the transcription gateway issues uses the
"offline" resolution. -/
theorem transcribe_calls_offline (env : TransEnv) (audio : List Nat)
    (fn mt : String) :
    ∀ call ∈ (transcribe env audio fn mt).2, offlineCall env call := by
  unfold transcribe
  by_cases h1 : lowerStr (env.resolveTask "offline").provider = "deepgram"
  · rw [if_pos h1]
    by_cases hc : env.deepgramConfigured = true
    · simp only [hc, Bool.not_true, Bool.false_eq_true, if_false]
      cases hr : env.deepgramReply <;>
        (intro call hcall; simp [hr] at hcall; simp [offlineCall, hcall])
    · simp [hc]
  · rw [if_neg h1]
    by_cases h2 : lowerStr (env.resolveTask "offline").provider = "openai"
    · rw [if_pos h2]
      by_cases hc : env.openaiConfigured = true
      · simp only [hc, Bool.not_true, Bool.false_eq_true, if_false]
        cases hr : env.openaiReply <;>
          (intro call hcall; simp [hr] at hcall; simp [offlineCall, hcall])
      · simp [hc]
    · rw [if_neg h2]
      by_cases h3 : lowerStr (env.resolveTask "offline").provider = "groq"
      · rw [if_pos h3]
        by_cases hc : env.groqKeyPresent = true
        · simp only [hc, Bool.not_true, Bool.false_eq_true, if_false]
          cases hr : env.groqReply <;>
            (intro call hcall; simp [hr] at hcall; simp [offlineCall, hcall])
        · simp [hc]
      · rw [if_neg h3]; simp

/-- Every transcription request the S3 controller triggers uses the
"offline" resolution. -/
theorem processS3_calls_offline (authed s3c : Bool) (uid key ctx : String)
    (env : OneShotEnv) (c : Nat) :
    ∀ call ∈ (processS3 authed s3c uid key ctx env c).transCalls,
      offlineCall env.trans call := by
  unfold processS3
  split
  · simp
  · split
    · simp
    · split
      · simp
      · cases hdc : deductCredit c with
  | mk c2 ok =>
        cases ok with
        | false => simp
        | true =>
            cases hs3 : env.s3Fetch with
            | error e => simp
            | ok audio =>
                have hoff := transcribe_calls_offline env.trans audio
                  (basenameOf key) (mimeForKey key)
                cases htr : transcribe env.trans audio (basenameOf key) (mimeForKey key) with
  | mk tres tcalls =>
                rw [htr] at hoff
                cases tres with
                | error e => simp only [htr]; exact hoff
                | ok transcript =>
                    cases hm : env.macros with
                    | error e => simp only [htr, hm]; exact hoff
                    | ok ms =>
                        cases hl : env.llm (generateScribePrompt transcript ctx ms) with
                        | error e => simp_all
                        | ok raw =>
                            by_cases hr : env.creditsReadOk = true <;> simp_all

/-- Every transcription request the backup controller triggers uses the
"offline" resolution. -/
theorem processBackup_calls_offline (authed fp : Bool)
    (fm fn : Option String) (ctx : String) (env : OneShotEnv) (c : Nat) :
    ∀ call ∈ (processBackup authed fp fm fn ctx env c).transCalls,
      offlineCall env.trans call := by
  unfold processBackup
  split
  · simp
  · split
    · simp
    · cases hdc : deductCredit c with
  | mk c2 ok =>
      cases ok with
      | false => simp
      | true =>
          cases hf : env.fileRead with
          | error e => simp
          | ok buffer =>
              have hoff := transcribe_calls_offline env.trans buffer
                (if (fn.getD "upload.webm").data.isEmpty = true then "upload.webm"
                  else fn.getD "upload.webm")
                (if (fm.getD "audio/webm").data.isEmpty = true then "audio/webm"
                  else fm.getD "audio/webm")
              cases htr : transcribe env.trans buffer
                  (if (fn.getD "upload.webm").data.isEmpty = true then "upload.webm"
                    else fn.getD "upload.webm")
                  (if (fm.getD "audio/webm").data.isEmpty = true then "audio/webm"
                    else fm.getD "audio/webm") with
  | mk tres tcalls =>
              rw [htr] at hoff
              cases tres with
              | error e => simp only [htr]; exact hoff
              | ok transcript =>
                  cases hm : env.macros with
                  | error e => simp only [htr, hm]; exact hoff
                  | ok ms =>
                      cases hl : env.llm (generateScribePrompt transcript ctx ms) with
                      | error e => simp_all
                      | ok raw =>
                          by_cases hr : env.creditsReadOk = true <;> simp_all

/-- C9: `transcribe(audioBytes, filename, mimeType)` resolves backend, model
and language via the "offline" transcription task — every provider request
it issues, including those triggered from the upload (S3) and backup
one-shot controllers, carries the offline-resolved configuration — and a
transcript returned by the backend is passed through verbatim, so an empty
provider transcript surfaces as the empty string rather than an error. -/
theorem c9_transcribe_offline :
    (∀ (env : TransEnv) (audio : List Nat) (fn mt : String),
        ∀ call ∈ (transcribe env audio fn mt).2, offlineCall env call)
  ∧ (∀ (env : TransEnv) (audio : List Nat) (fn mt t : String),
        lowerStr (env.resolveTask "offline").provider = "deepgram" →
        env.deepgramConfigured = true → env.deepgramReply = .ok t →
        (transcribe env audio fn mt).1 = .ok t)
  ∧ (∀ (env : TransEnv) (audio : List Nat) (fn mt t : String),
        lowerStr (env.resolveTask "offline").provider = "openai" →
        env.openaiConfigured = true → env.openaiReply = .ok t →
        (transcribe env audio fn mt).1 = .ok t)
  ∧ (∀ (env : TransEnv) (audio : List Nat) (fn mt t : String),
        lowerStr (env.resolveTask "offline").provider = "groq" →
        env.groqKeyPresent = true → env.groqReply = .ok t →
        (transcribe env audio fn mt).1 = .ok t)
  ∧ (∀ (authed s3c : Bool) (uid key ctx : String) (env : OneShotEnv) (c : Nat),
        ∀ call ∈ (processS3 authed s3c uid key ctx env c).transCalls,
          offlineCall env.trans call)
  ∧ (∀ (authed fp : Bool) (fm fn : Option String) (ctx : String)
        (env : OneShotEnv) (c : Nat),
        ∀ call ∈ (processBackup authed fp fm fn ctx env c).transCalls,
          offlineCall env.trans call) := by
  refine ⟨transcribe_calls_offline, ?_, ?_, ?_,
      processS3_calls_offline, processBackup_calls_offline⟩
  · intro env audio fn mt t h1 hc hr
    unfold transcribe
    simp [h1, hc, hr]
  · intro env audio fn mt t h2 hc hr
    unfold transcribe
    by_cases h1 : lowerStr (env.resolveTask "offline").provider = "deepgram"
    · exact absurd (h1.symm.trans h2) (by decide)
    · rw [if_neg h1]
      simp [h2, hc, hr]
  · intro env audio fn mt t h3 hc hr
    unfold transcribe
    by_cases h1 : lowerStr (env.resolveTask "offline").provider = "deepgram"
    · exact absurd (h1.symm.trans h3) (by decide)
    · by_cases h2 : lowerStr (env.resolveTask "offline").provider = "openai"
      · exact absurd (h2.symm.trans h3) (by decide)
      · rw [if_neg h1, if_neg h2]
        simp [h3, hc, hr]

/-- C9 witness: an empty Deepgram transcript is passed through as the empty
string, and the single request issued carries the offline-resolved backend
and model even though the live task resolves to a different model. -/
theorem c9_witness :
    (transcribe wTransEnvEmpty [1, 2] "a.webm" "audio/webm").1 = .ok ""
    ∧ offlineCall wTransEnvEmpty
        ⟨"deepgram", "nova-2", "en-IN", "a.webm", "audio/webm"⟩ :=
  ⟨c9_transcribe_offline.2.1 wTransEnvEmpty [1, 2] "a.webm" "audio/webm" ""
      (by decide) rfl rfl,
   c9_transcribe_offline.1 wTransEnvEmpty [1, 2] "a.webm" "audio/webm"
      ⟨"deepgram", "nova-2", "en-IN", "a.webm", "audio/webm"⟩ (by decide)⟩

/-- C4 witness: a frame arriving with the channel already set leaves the
session unchanged (no further open request). -/
theorem c4_witness :
    audioStep true ⟨some (), 0, 1⟩ .frame = ⟨some (), 0, 1⟩ :=
  c4_amended.2.1 true ⟨some (), 0, 1⟩ rfl

end ClinovaRx
